import Mathlib

/-!
Formal model of the chat API route (src/app/api/chat/route.ts): the
retry/backoff executor wrapping each upstream model call, the bounded
tool-calling orchestration loop, session-history accumulation, and the
terminal error classifier.

Modelling conventions: thrown JavaScript errors are represented by their
message string; the regular-expression probes the route applies to error
messages are implemented character by character with the same matching
semantics; `parseFloat` of the decimal numeral captured by the
`retry in (\d+(\.\d+)?)s` regex is modelled as the exact rational value of
that numeral; delays are rationals in milliseconds.  The remote model and
the remote search capability are oracles supplied as function parameters.
-/

namespace ChatRoute

/-- Role of one request/stored-history message (`Message` in route.ts). -/
inductive Role where
  | user
  | assistant
  deriving DecidableEq

/-- One chat message as stored in the session history (`Message` in route.ts). -/
structure Message where
  role : Role
  content : String
  deriving DecidableEq

/-- Longest digit run at the head of the character list (the regex `\d+`). -/
def takeDigits : List Char → List Char
  | [] => []
  | c :: cs => if c.isDigit then c :: takeDigits cs else []

/-- Characters remaining after the leading digit run. -/
def dropDigits : List Char → List Char
  | [] => []
  | c :: cs => if c.isDigit then dropDigits cs else c :: cs

/-- Decimal value of a digit run (JavaScript `parseInt(ds, 10)`). -/
def digitsVal (ds : List Char) : Nat :=
  ds.foldl (fun acc c => acc * 10 + (c.toNat - 48)) 0

/-- Whether `pat` occurs as a contiguous substring of the character list. -/
def containsFrom (pat : List Char) : List Char → Bool
  | [] => pat.isEmpty
  | c :: cs => pat.isPrefixOf (c :: cs) || containsFrom pat cs

/-- JavaScript `s.includes(pat)`. -/
def strIncludes (s pat : String) : Bool :=
  containsFrom pat.toList s.toList

/-- First match of the regex `code\":(\d+)` (route.ts lines 172 and 252): the
earliest position where the literal characters `code":` are followed by at
least one digit; returns the value of the captured digit run. -/
def findCodeNum : List Char → Option Nat
  | [] => none
  | c :: cs =>
    if ("code\":".toList).isPrefixOf (c :: cs) ∧ takeDigits ((c :: cs).drop 6) ≠ [] then
      some (digitsVal (takeDigits ((c :: cs).drop 6)))
    else
      findCodeNum cs

/-- `statusCode` as computed at route.ts lines 172-173 and 252-253: the number
captured by `code\":(\d+)`, or 0 when the regex does not match. -/
def parseStatusCode (m : String) : Nat :=
  (findCodeNum m.toList).getD 0

/-- Tail parse at a candidate position of the regex `retry in (\d+(\.\d+)?)s`
once the literal `retry in ` has been consumed: a digit run, an optional
fractional part, then the letter s.  Returns the exact rational value of the
captured group (modelling `parseFloat` of the captured numeral). -/
def parseSecondsAt (tail : List Char) : Option ℚ :=
  let ints := takeDigits tail
  if ints = [] then none
  else
    match dropDigits tail with
    | '.' :: t2 =>
      let fr := takeDigits t2
      if fr = [] then none
      else
        match dropDigits t2 with
        | 's' :: _ => some ((digitsVal ints : ℚ) + (digitsVal fr : ℚ) / (10 : ℚ) ^ fr.length)
        | _ => none
    | 's' :: _ => some ((digitsVal ints : ℚ))
    | _ => none

/-- First match of the regex `retry in (\d+(\.\d+)?)s` (route.ts line 178). -/
def findRetrySecs : List Char → Option ℚ
  | [] => none
  | c :: cs =>
    if ("retry in ".toList).isPrefixOf (c :: cs) then
      match parseSecondsAt ((c :: cs).drop 9) with
      | some q => some q
      | none => findRetrySecs cs
    else findRetrySecs cs

/-- Advised wait in seconds parsed from a failure message (route.ts line 178). -/
def parseRetrySecs (m : String) : Option ℚ :=
  findRetrySecs m.toList

/-- One entry of the Gemini `contents` array (`Content` in route.ts): a mapped
history message, the opaque `candidates[0].content` of a model response pushed
back verbatim, or a `functionResponse` part. -/
inductive GContent where
  | turn (role : String) (text : String)
  | modelPayload (data : String)
  | functionResponse (name : String) (payload : String)
  deriving DecidableEq

/-- A function call requested by the model (`call.name`, `call.args.query`). -/
structure FunctionCall where
  name : String
  argQuery : String
  deriving DecidableEq

/-- The parts of a `generateContent` response the route reads:
`functionCalls`, `candidates[0].content`, and `text`. -/
structure GenResponse where
  functionCalls : List FunctionCall
  candContent : Option GContent
  text : Option String
  deriving DecidableEq

/-- `maxRetries` (route.ts line 134). -/
def maxRetries : Nat := 5

/-- Initial `currentDelay` in milliseconds (route.ts line 135). -/
def initialDelay : ℚ := 2000

/-- The `shouldRetry` flag (route.ts lines 168-184): set exactly when the
parsed status code is 503 or 429. -/
def shouldRetry (m : String) : Bool :=
  if parseStatusCode m = 503 then true
  else if parseStatusCode m = 429 then true
  else false

/-- `retryDelayMs` (route.ts lines 169-181): for a 429-classified failure
carrying a `retry in …s` hint, the advised seconds times 1000 plus 500;
otherwise the current backoff value. -/
def retryDelayMs (currentDelay : ℚ) (m : String) : ℚ :=
  if parseStatusCode m = 503 then currentDelay
  else if parseStatusCode m = 429 then
    match parseRetrySecs m with
    | some s => s * 1000 + 500
    | none => currentDelay
  else currentDelay

/-- `currentDelay` update after a performed retry (route.ts lines 189-191):
doubled exactly when the message contains the literal substring `code":503`. -/
def nextDelay (currentDelay : ℚ) (m : String) : ℚ :=
  if strIncludes m "code\":503" = true then currentDelay * 2 else currentDelay

/-- Trace of one run of the retry loop: the outcome (`.ok none` models the
loop ending with `response` still undefined, which cannot happen when
`maxRetries > 0`), the number of attempts performed, and the waits performed,
in order. -/
structure RetryResult where
  outcome : Except String (Option GenResponse)
  attempts : Nat
  delays : List ℚ

/-- The retry loop (route.ts lines 138-196), indexed by remaining attempts
`n = maxRetries - attempt`; a failed attempt is retried only when it is
retryable and another attempt remains (`attempt < maxRetries - 1`), and the
wait `retryDelayMs` is performed before the backoff update. -/
def retryAux (op : Nat → Except String GenResponse) :
    Nat → Nat → ℚ → List ℚ → RetryResult
  | 0, attempt, _, ds => ⟨.ok none, attempt, ds.reverse⟩
  | n + 1, attempt, cur, ds =>
    match op attempt with
    | .ok r => ⟨.ok (some r), attempt + 1, ds.reverse⟩
    | .error m =>
      if shouldRetry m = true ∧ 0 < n then
        retryAux op n (attempt + 1) (nextDelay cur m) (retryDelayMs cur m :: ds)
      else ⟨.error m, attempt + 1, ds.reverse⟩

/-- One full run of the retry executor around an upstream call, starting at
attempt 0 with the 2000ms base delay. -/
def retryExec (op : Nat → Except String GenResponse) : RetryResult :=
  retryAux op maxRetries 0 initialDelay []

/-- `maxToolCalls` (route.ts line 123). -/
def maxToolCalls : Nat := 5

/-- `response?.functionCalls?.[0]`. -/
def firstCall (ro : Option GenResponse) : Option FunctionCall :=
  ro.bind fun r => r.functionCalls.head?

/-- `response?.candidates?.[0]?.content`. -/
def candOf (ro : Option GenResponse) : Option GContent :=
  ro.bind fun r => r.candContent

/-- Result of the tool-calling loop: the final `fullResponse`, the final
`contents` array, and the number of loop rounds executed (model calls made). -/
structure LoopResult where
  fullResponse : Option GenResponse
  contents : List GContent
  rounds : Nat

/-- The tool-calling loop (route.ts lines 125-234), indexed by remaining
rounds `fuel = maxToolCalls - i`.  Each round first applies the stale-length
break check (lines 127-131), then runs the upstream call through the retry
executor; a response with no function call breaks out; a `googleSearch` call
appends the model's tool-invocation record and the tool's result to
`contents` and continues; any other tool name throws. -/
def loopAux (gen : Nat → Nat → Except String GenResponse) (search : String → String) :
    Nat → Nat → List GContent → Nat → Option GenResponse → Except String LoopResult
  | 0, i, cs, _, fr => .ok ⟨fr, cs, i⟩
  | fuel + 1, i, cs, cl, fr =>
    if cs.length ≤ cl ∧ 0 < i then .ok ⟨fr, cs, i⟩
    else
      match (retryExec (gen i)).outcome with
      | .error m => .error m
      | .ok ro =>
        match firstCall ro with
        | none => .ok ⟨ro, cs, i + 1⟩
        | some call =>
          if call.name = "googleSearch" then
            match candOf ro with
            | some cc =>
              loopAux gen search fuel (i + 1)
                (cs ++ [cc, .functionResponse "googleSearch" (search call.argQuery)])
                (if cl < cs.length then cs.length else cl) ro
            | none => .ok ⟨ro, cs, i + 1⟩
          else .error ("Unknown function call: " ++ call.name)

/-- The whole tool-calling iteration as entered at route.ts line 125:
`i = 0`, `contentsLength = contents.length`, `fullResponse` undefined. -/
def runLoop (gen : Nat → Nat → Except String GenResponse) (search : String → String)
    (contents : List GContent) : Except String LoopResult :=
  loopAux gen search maxToolCalls 0 contents contents.length none

/-- Error body when the Gemini API key is not configured (route.ts line 90). -/
def msgNoKey : String := "Gemini APIキーが設定されていません。"

/-- User-facing message for a terminal 503 (route.ts line 257). -/
def msg503 : String := "現在サービスが大変混み合っています。リトライを試みましたが解決しませんでした。時間を置いて再度お試しください。"

/-- User-facing message for a terminal 429 (route.ts line 260). -/
def msg429 : String := "現在、APIの利用制限（クォータ）を超過しています。数分待ってから再度お試しください。"

/-- User-facing message for a credential failure (route.ts line 263). -/
def msg401 : String := "認証情報に問題があります。APIキーの設定を確認してください。"

/-- User-facing message for a terminal 400 (route.ts line 266). -/
def msg400 : String := "無効なリクエストが送信されました。アプリケーション側に問題がある可能性があります。"

/-- Default user-facing message for an unclassified failure (route.ts line 268). -/
def msgDefault : String := "サーバーエラーが発生しました。詳細については、コンソールログを確認してください。"

/-- The terminal error classifier of the catch block (route.ts lines 251-269):
maps the escaped error's message to the response status and body. -/
def classifyTerminal (m : String) : Nat × String :=
  if parseStatusCode m = 503 then (503, msg503)
  else if parseStatusCode m = 429 then (429, msg429)
  else if strIncludes m "API_KEY" = true then (401, msg401)
  else if parseStatusCode m = 400 then (400, msg400)
  else (500, msgDefault)

/-- Role mapping into the Gemini `Content` format (route.ts line 109). -/
def roleToModelRole : Role → String
  | .user => "user"
  | .assistant => "model"

/-- History message mapped into the Gemini `Content` format (route.ts 108-114). -/
def msgToContent (msg : Message) : GContent :=
  .turn (roleToModelRole msg.role) msg.content

/-- Fallback reply when no response text is available (route.ts line 238). -/
def fallbackReply : String := "ごめん、CATミュージックカレッジはマジでうまく返せへんかったわ😭！"

/-- `fullResponse?.text ?? fallback` (route.ts line 238). -/
def replyOf (ro : Option GenResponse) : String :=
  (ro.bind GenResponse.text).getD fallbackReply

/-- The outcome of one POST request: response status, response body (`.ok`
carries the success `message` field, `.error` the failure `error` field), and
the session history stored for the request's session id afterwards. -/
structure PostResult where
  status : Nat
  body : Except String String
  history : List Message

/-- The POST handler (route.ts lines 85-273) for one session: `apiKeySet`
models whether `GEMINI_API_KEY` is configured, `prior` is the stored history
for the request's session id, `messages` the request payload.  Returns `none`
for an empty `messages` array, where the source dereferences `undefined` and
crashes outside its try block. -/
def postModel (apiKeySet : Bool) (prior messages : List Message)
    (gen : Nat → Nat → Except String GenResponse) (search : String → String) :
    Option PostResult :=
  if apiKeySet = true then
    match messages.getLast? with
    | none => none
    | some current =>
      match runLoop gen search ((prior ++ [current]).map msgToContent) with
      | .ok lr =>
        some ⟨200, .ok (replyOf lr.fullResponse),
              (prior ++ [current]) ++ [⟨Role.assistant, replyOf lr.fullResponse⟩]⟩
      | .error m =>
        some ⟨(classifyTerminal m).1, .error (classifyTerminal m).2, prior ++ [current]⟩
  else
    some ⟨500, .error msgNoKey, prior⟩

/-! Unfolding and step lemmas for the retry executor and the tool loop. -/

theorem retryAux_zero (op : Nat → Except String GenResponse) (attempt : Nat) (cur : ℚ)
    (ds : List ℚ) : retryAux op 0 attempt cur ds = ⟨.ok none, attempt, ds.reverse⟩ := rfl

theorem retryAux_succ (op : Nat → Except String GenResponse) (n attempt : Nat) (cur : ℚ)
    (ds : List ℚ) :
    retryAux op (n + 1) attempt cur ds =
      match op attempt with
      | .ok r => ⟨.ok (some r), attempt + 1, ds.reverse⟩
      | .error m =>
        if shouldRetry m = true ∧ 0 < n then
          retryAux op n (attempt + 1) (nextDelay cur m) (retryDelayMs cur m :: ds)
        else ⟨.error m, attempt + 1, ds.reverse⟩ := rfl

theorem retryAux_ok {op : Nat → Except String GenResponse} {attempt : Nat} {r : GenResponse}
    (n : Nat) (cur : ℚ) (ds : List ℚ) (h : op attempt = .ok r) :
    retryAux op (n + 1) attempt cur ds = ⟨.ok (some r), attempt + 1, ds.reverse⟩ := by
  rw [retryAux_succ, h]

theorem retryAux_stop {op : Nat → Except String GenResponse} {attempt : Nat} {m : String}
    (n : Nat) (cur : ℚ) (ds : List ℚ) (h : op attempt = .error m)
    (hs : ¬(shouldRetry m = true ∧ 0 < n)) :
    retryAux op (n + 1) attempt cur ds = ⟨.error m, attempt + 1, ds.reverse⟩ := by
  rw [retryAux_succ, h]
  exact if_neg hs

theorem retryAux_retry {op : Nat → Except String GenResponse} {attempt : Nat} {m : String}
    (n : Nat) (cur : ℚ) (ds : List ℚ) (h : op attempt = .error m)
    (hs : shouldRetry m = true) (hn : 0 < n) :
    retryAux op (n + 1) attempt cur ds =
      retryAux op n (attempt + 1) (nextDelay cur m) (retryDelayMs cur m :: ds) := by
  rw [retryAux_succ, h]
  exact if_pos ⟨hs, hn⟩

/-- A non-retryable classification means `shouldRetry` is off. -/
theorem shouldRetry_eq_false {m : String} (h503 : parseStatusCode m ≠ 503)
    (h429 : parseStatusCode m ≠ 429) : shouldRetry m = false := by
  unfold shouldRetry
  rw [if_neg h503, if_neg h429]

/-- Success on the very first attempt: one attempt, no waits. -/
theorem retryExec_first_ok {op : Nat → Except String GenResponse} {r : GenResponse}
    (h : op 0 = .ok r) : retryExec op = ⟨.ok (some r), 1, []⟩ := by
  show retryAux op (4 + 1) 0 initialDelay [] = _
  rw [retryAux_ok 4 initialDelay [] h]
  rfl

/-- A first-attempt failure that is not retryable is re-thrown at once:
one attempt, no waits. -/
theorem retryExec_first_fatal {op : Nat → Except String GenResponse} {m : String}
    (h : op 0 = .error m) (hs : shouldRetry m = false) :
    retryExec op = ⟨.error m, 1, []⟩ := by
  show retryAux op (4 + 1) 0 initialDelay [] = _
  rw [retryAux_stop 4 initialDelay [] h (by simp [hs])]
  rfl

theorem loopAux_zero (gen : Nat → Nat → Except String GenResponse) (search : String → String)
    (i : Nat) (cs : List GContent) (cl : Nat) (fr : Option GenResponse) :
    loopAux gen search 0 i cs cl fr = .ok ⟨fr, cs, i⟩ := rfl

theorem loopAux_succ (gen : Nat → Nat → Except String GenResponse) (search : String → String)
    (fuel i : Nat) (cs : List GContent) (cl : Nat) (fr : Option GenResponse) :
    loopAux gen search (fuel + 1) i cs cl fr =
      if cs.length ≤ cl ∧ 0 < i then .ok ⟨fr, cs, i⟩
      else
        match (retryExec (gen i)).outcome with
        | .error m => .error m
        | .ok ro =>
          match firstCall ro with
          | none => .ok ⟨ro, cs, i + 1⟩
          | some call =>
            if call.name = "googleSearch" then
              match candOf ro with
              | some cc =>
                loopAux gen search fuel (i + 1)
                  (cs ++ [cc, .functionResponse "googleSearch" (search call.argQuery)])
                  (if cl < cs.length then cs.length else cl) ro
              | none => .ok ⟨ro, cs, i + 1⟩
            else .error ("Unknown function call: " ++ call.name) := rfl

theorem loopAux_err {gen : Nat → Nat → Except String GenResponse} {i : Nat} {m : String}
    (search : String → String) (fuel : Nat) {cs : List GContent} {cl : Nat}
    (fr : Option GenResponse) (hg : ¬(cs.length ≤ cl ∧ 0 < i))
    (ho : (retryExec (gen i)).outcome = .error m) :
    loopAux gen search (fuel + 1) i cs cl fr = .error m := by
  rw [loopAux_succ, if_neg hg, ho]

theorem loopAux_no_call {gen : Nat → Nat → Except String GenResponse} {i : Nat}
    {ro : Option GenResponse} (search : String → String) (fuel : Nat) {cs : List GContent}
    {cl : Nat} (fr : Option GenResponse) (hg : ¬(cs.length ≤ cl ∧ 0 < i))
    (ho : (retryExec (gen i)).outcome = .ok ro) (hc : firstCall ro = none) :
    loopAux gen search (fuel + 1) i cs cl fr = .ok ⟨ro, cs, i + 1⟩ := by
  rw [loopAux_succ, if_neg hg, ho]
  show (match firstCall ro with
        | none => Except.ok (⟨ro, cs, i + 1⟩ : LoopResult)
        | some call => _) = _
  rw [hc]

theorem loopAux_unknown {gen : Nat → Nat → Except String GenResponse} {i : Nat}
    {ro : Option GenResponse} {call : FunctionCall} (search : String → String) (fuel : Nat)
    {cs : List GContent} {cl : Nat} (fr : Option GenResponse)
    (hg : ¬(cs.length ≤ cl ∧ 0 < i)) (ho : (retryExec (gen i)).outcome = .ok ro)
    (hc : firstCall ro = some call) (hn : ¬call.name = "googleSearch") :
    loopAux gen search (fuel + 1) i cs cl fr =
      .error ("Unknown function call: " ++ call.name) := by
  rw [loopAux_succ, if_neg hg, ho]
  show (match firstCall ro with
        | none => Except.ok (⟨ro, cs, i + 1⟩ : LoopResult)
        | some call => _) = _
  rw [hc]
  exact if_neg hn

theorem loopAux_tool {gen : Nat → Nat → Except String GenResponse} {i : Nat}
    {ro : Option GenResponse} {call : FunctionCall} {cc : GContent} (search : String → String)
    (fuel : Nat) {cs : List GContent} {cl : Nat} (fr : Option GenResponse)
    (hg : ¬(cs.length ≤ cl ∧ 0 < i)) (ho : (retryExec (gen i)).outcome = .ok ro)
    (hc : firstCall ro = some call) (hn : call.name = "googleSearch")
    (hcc : candOf ro = some cc) :
    loopAux gen search (fuel + 1) i cs cl fr =
      loopAux gen search fuel (i + 1)
        (cs ++ [cc, .functionResponse "googleSearch" (search call.argQuery)])
        (if cl < cs.length then cs.length else cl) ro := by
  rw [loopAux_succ, if_neg hg, ho]
  show (match firstCall ro with
        | none => Except.ok (⟨ro, cs, i + 1⟩ : LoopResult)
        | some call => _) = _
  rw [hc]
  simp only [hn, hcc, if_true]

theorem postModel_noKey (prior messages : List Message)
    (gen : Nat → Nat → Except String GenResponse) (search : String → String) :
    postModel false prior messages gen search = some ⟨500, .error msgNoKey, prior⟩ := rfl

theorem postModel_ok {messages : List Message} {current : Message} {lr : LoopResult}
    (prior : List Message) (gen : Nat → Nat → Except String GenResponse)
    (search : String → String) (hlast : messages.getLast? = some current)
    (hrun : runLoop gen search ((prior ++ [current]).map msgToContent) = .ok lr) :
    postModel true prior messages gen search =
      some ⟨200, .ok (replyOf lr.fullResponse),
            (prior ++ [current]) ++ [⟨Role.assistant, replyOf lr.fullResponse⟩]⟩ := by
  simp only [postModel, if_pos rfl, hlast, hrun, if_true]

theorem postModel_err {messages : List Message} {current : Message} {m : String}
    (prior : List Message) (gen : Nat → Nat → Except String GenResponse)
    (search : String → String) (hlast : messages.getLast? = some current)
    (hrun : runLoop gen search ((prior ++ [current]).map msgToContent) = .error m) :
    postModel true prior messages gen search =
      some ⟨(classifyTerminal m).1, .error (classifyTerminal m).2, prior ++ [current]⟩ := by
  simp only [postModel, if_pos rfl, hlast, hrun, if_true]

/-- The terminal classifier never produces a success status. -/
theorem classifyTerminal_ne_200 (m : String) : (classifyTerminal m).1 ≠ 200 := by
  unfold classifyTerminal
  split_ifs <;> decide

/-- A run in which every round's upstream call yields a well-formed
`googleSearch` tool-call response executes every remaining round and ends with
the last round's response and a full round count. -/
theorem loopAux_all_tools (gen : Nat → Nat → Except String GenResponse)
    (search : String → String) (resp : Nat → GenResponse) (q : Nat → String)
    (cc : Nat → GContent)
    (hgen : ∀ j, (retryExec (gen j)).outcome = .ok (some (resp j)))
    (hcall : ∀ j, (resp j).functionCalls.head? = some ⟨"googleSearch", q j⟩)
    (hcc : ∀ j, (resp j).candContent = some (cc j)) :
    ∀ (fuel i : Nat) (cs : List GContent) (cl : Nat) (fr : Option GenResponse),
      (cl < cs.length ∨ (i = 0 ∧ cl = cs.length)) →
      ∃ cs2, loopAux gen search (fuel + 1) i cs cl fr =
        .ok ⟨some (resp (i + fuel)), cs2, i + fuel + 1⟩ := by
  intro fuel
  induction fuel with
  | zero =>
    intro i cs cl fr hguard
    have hg : ¬(cs.length ≤ cl ∧ 0 < i) := by
      rcases hguard with h | ⟨h0, hl⟩ <;> omega
    have hfc : firstCall (some (resp i)) = some ⟨"googleSearch", q i⟩ := by
      simp [firstCall, hcall i]
    have hcand : candOf (some (resp i)) = some (cc i) := by
      simp [candOf, hcc i]
    rw [loopAux_tool search 0 fr hg (hgen i) hfc rfl hcand, loopAux_zero]
    exact ⟨_, rfl⟩
  | succ f ih =>
    intro i cs cl fr hguard
    have hg : ¬(cs.length ≤ cl ∧ 0 < i) := by
      rcases hguard with h | ⟨h0, hl⟩ <;> omega
    have hfc : firstCall (some (resp i)) = some ⟨"googleSearch", q i⟩ := by
      simp [firstCall, hcall i]
    have hcand : candOf (some (resp i)) = some (cc i) := by
      simp [candOf, hcc i]
    rw [loopAux_tool search (f + 1) fr hg (hgen i) hfc rfl hcand]
    have hcl2 : (if cl < cs.length then cs.length else cl) = cs.length := by
      rcases hguard with h | ⟨h0, hl⟩
      · rw [if_pos h]
      · rw [hl]
        simp
    rw [hcl2]
    have hlen : cs.length <
        (cs ++ [cc i, GContent.functionResponse "googleSearch" (search (q i))]).length := by
      simp
    obtain ⟨cs2, h2⟩ := ih (i + 1)
      (cs ++ [cc i, GContent.functionResponse "googleSearch" (search (q i))])
      cs.length (some (resp i)) (Or.inl hlen)
    have harith : i + 1 + f = i + (f + 1) := by omega
    rw [harith] at h2
    have harith2 : i + 1 + f + 1 = i + (f + 1) + 1 := by omega
    exact ⟨cs2, h2⟩

/-! Claim C1. -/

/-- A minimal successful upstream response used in concrete runs. -/
def sampleOk : GenResponse := ⟨[], none, some "done"⟩

/-- C1 counterexample: a request whose terminal failure indicates a missing
credential — the `GEMINI_API_KEY` environment variable is unset — is answered
with status 500 and the missing-key body (route.ts lines 88-91), not 401 as
the claim states. -/
theorem C1_counterexample :
    postModel false [] [⟨Role.user, "こんにちは"⟩] (fun _ _ => .error "unused") (fun _ => "") =
      some ⟨500, .error msgNoKey, []⟩ ∧ (500 : Nat) ≠ 401 :=
  ⟨rfl, by decide⟩

/-- C1 (amended): an upstream failure whose message contains `API_KEY` and is
not classified as 503 or 429 is surfaced with status 401 and the credential
error body, and no retry is attempted before it is surfaced: the executor
performs exactly one attempt with no backoff wait.  (A request rejected
because the API key is unconfigured instead returns status 500 before any
upstream call, per the counterexample.) -/
theorem C1_auth_error_behaviour (prior ms : List Message) (m0 : Message)
    (gen : Nat → Nat → Except String GenResponse) (search : String → String) (m : String)
    (hgen : gen 0 0 = .error m) (h503 : parseStatusCode m ≠ 503)
    (h429 : parseStatusCode m ≠ 429) (hkey : strIncludes m "API_KEY" = true) :
    retryExec (gen 0) = ⟨.error m, 1, []⟩ ∧
    postModel true prior (ms ++ [m0]) gen search =
      some ⟨401, .error msg401, prior ++ [m0]⟩ := by
  have hsr : shouldRetry m = false := shouldRetry_eq_false h503 h429
  have hre : retryExec (gen 0) = ⟨.error m, 1, []⟩ := retryExec_first_fatal hgen hsr
  refine ⟨hre, ?_⟩
  have hrun : runLoop gen search ((prior ++ [m0]).map msgToContent) = .error m := by
    show loopAux gen search (4 + 1) 0 _ _ none = _
    exact loopAux_err search 4 none (by simp) (by rw [hre])
  have hclass : classifyTerminal m = (401, msg401) := by
    unfold classifyTerminal
    rw [if_neg h503, if_neg h429, if_pos hkey]
  rw [postModel_err prior gen search (List.getLast?_concat _) hrun, hclass]

/-- Oracle that always fails with a credential error message. -/
def genAuthFail : Nat → Nat → Except String GenResponse :=
  fun _ _ => .error "API_KEY invalid"

/-- C1 witness: the amended behaviour at a concrete credential failure. -/
theorem C1_witness :
    retryExec (genAuthFail 0) = ⟨.error "API_KEY invalid", 1, []⟩ ∧
    postModel true [] [⟨Role.user, "hi"⟩] genAuthFail (fun _ => "") =
      some ⟨401, .error msg401, [⟨Role.user, "hi"⟩]⟩ :=
  C1_auth_error_behaviour [] [] ⟨Role.user, "hi"⟩ genAuthFail (fun _ => "")
    "API_KEY invalid" rfl (by decide) (by decide) (by decide)

/-! Claim C2. -/

/-- Upstream behaviour: 503-classified failures (with a leading-zero digit
run, so the doubling substring check fails) on attempts 1-2, success after. -/
def opC2 : Nat → Except String GenResponse :=
  fun a => if a < 2 then .error "code\":0503" else .ok sampleOk

/-- C2 counterexample: the message `code":0503` is 503-classified — the regex
`code\":(\d+)` captures `0503` and `parseInt` yields 503 — yet the backoff is
never doubled, because the doubling test is the independent substring check
`includes("code\":503")`, which this message fails.  Overloaded-classified
failures on attempts 1 and 2 with success on attempt 3 here give two 2000ms
waits: the second backoff delay is not double the first. -/
theorem C2_counterexample :
    parseStatusCode "code\":0503" = 503 ∧
    retryExec opC2 = ⟨.ok (some sampleOk), 3, [2000, 2000]⟩ ∧
    ¬((2000 : ℚ) = 2 * 2000) := by
  refine ⟨by decide, ?_, by norm_num⟩
  rfl

/-- C2 (amended): for an upstream call failing on attempts 1 and 2 with
503-classified errors whose message contains the literal substring
`code":503` (the shape real overload failures have) and succeeding on
attempt 3, the executor makes exactly 3 attempts, the first wait is the
2000ms base and the second wait, 4000ms, is double the first; the doubling is
keyed on that substring occurring in the failed attempt's message, not on the
503 classification itself. -/
theorem C2_overloaded_retry (op : Nat → Except String GenResponse) (r : GenResponse)
    (m1 m2 : String) (h0 : op 0 = .error m1) (h1 : op 1 = .error m2) (h2 : op 2 = .ok r)
    (hc1 : parseStatusCode m1 = 503) (hd1 : strIncludes m1 "code\":503" = true)
    (hc2 : parseStatusCode m2 = 503) :
    retryExec op = ⟨.ok (some r), 3, [2000, 4000]⟩ := by
  have hs1 : shouldRetry m1 = true := by
    unfold shouldRetry
    rw [if_pos hc1]
  have hs2 : shouldRetry m2 = true := by
    unfold shouldRetry
    rw [if_pos hc2]
  have hnd : nextDelay initialDelay m1 = 4000 := by
    unfold nextDelay
    rw [if_pos hd1]
    norm_num [initialDelay]
  have hrd1 : retryDelayMs initialDelay m1 = 2000 := by
    unfold retryDelayMs
    rw [if_pos hc1]
    rfl
  have hrd2 : retryDelayMs 4000 m2 = 4000 := by
    unfold retryDelayMs
    rw [if_pos hc2]
  show retryAux op (4 + 1) 0 initialDelay [] = _
  rw [retryAux_retry 4 initialDelay [] h0 hs1 (by omega), hnd, hrd1]
  rw [retryAux_retry 3 4000 [2000] h1 hs2 (by omega), hrd2]
  rw [retryAux_ok 2 (nextDelay 4000 m2) [4000, 2000] h2]
  rfl

/-- Upstream behaviour for the C2 witness: genuine 503 messages. -/
def opC2w : Nat → Except String GenResponse :=
  fun a => if a < 2 then .error "code\":503" else .ok sampleOk

/-- C2 witness: the amended claim at a concrete overloaded upstream. -/
theorem C2_witness : retryExec opC2w = ⟨.ok (some sampleOk), 3, [2000, 4000]⟩ :=
  C2_overloaded_retry opC2w sampleOk _ _ rfl rfl rfl (by decide) (by decide) (by decide)

/-! Claim C3. -/

/-- Upstream behaviour: 429-classified failures whose message also contains
the substring `code":503`, on attempts 1-2, success after. -/
def opC3 : Nat → Except String GenResponse :=
  fun a => if a < 2 then .error "code\":429code\":503" else .ok sampleOk

/-- C3 counterexample: the message `code":429code":503` is 429-classified (the
regex takes the first `code":` match) and advises no wait duration, so by the
claim both waits should be the unchanged 2000ms backoff; but the doubling
test is the substring check `includes("code\":503")`, which this message
passes, so after the first retry the backoff doubles on this 429 path and the
second wait is 4000ms. -/
theorem C3_counterexample :
    parseStatusCode "code\":429code\":503" = 429 ∧
    parseRetrySecs "code\":429code\":503" = none ∧
    retryExec opC3 = ⟨.ok (some sampleOk), 3, [2000, 4000]⟩ ∧
    ¬((4000 : ℚ) = 2000) := by
  refine ⟨by decide, by decide, ?_, by norm_num⟩
  have hs : shouldRetry "code\":429code\":503" = true := by decide
  have hnd : nextDelay initialDelay "code\":429code\":503" = 4000 := by
    unfold nextDelay
    rw [if_pos (by decide)]
    norm_num [initialDelay]
  have hrd1 : retryDelayMs initialDelay "code\":429code\":503" = 2000 := by
    unfold retryDelayMs
    rw [if_neg (by decide), if_pos (by decide)]
    rfl
  have hrd2 : retryDelayMs 4000 "code\":429code\":503" = 4000 := by
    unfold retryDelayMs
    rw [if_neg (by decide), if_pos (by decide)]
    rfl
  show retryAux opC3 (4 + 1) 0 initialDelay [] = _
  rw [retryAux_retry 4 initialDelay [] rfl hs (by omega), hnd, hrd1]
  rw [retryAux_retry 3 4000 [2000] rfl hs (by omega), hrd2]
  rw [retryAux_ok 2 (nextDelay 4000 "code\":429code\":503") [4000, 2000] rfl]
  rfl

/-- C3 (amended): for a 429-classified failure advising a wait of s seconds
the computed wait is s × 1000 + 500 milliseconds; with no advised duration
the current backoff value is used; and the backoff value is not doubled on
the 429 path unless the failure message also contains the literal substring
`code":503` (the doubling check is a substring test independent of the
classification). -/
theorem C3_rate_limited_backoff (d : ℚ) (m : String) (s : ℚ)
    (h429 : parseStatusCode m = 429) :
    (parseRetrySecs m = some s → retryDelayMs d m = s * 1000 + 500) ∧
    (parseRetrySecs m = none → retryDelayMs d m = d) ∧
    (strIncludes m "code\":503" = false → nextDelay d m = d) := by
  have hne : parseStatusCode m ≠ 503 := by
    rw [h429]
    decide
  refine ⟨?_, ?_, ?_⟩
  · intro h
    unfold retryDelayMs
    rw [if_neg hne, if_pos h429, h]
  · intro h
    unfold retryDelayMs
    rw [if_neg hne, if_pos h429, h]
  · intro h
    unfold nextDelay
    rw [h]
    exact if_neg (by decide)

/-- C3 witness: the spec's own example — `retry in 2.5s` yields a 3000ms
wait. -/
theorem C3_witness :
    parseStatusCode "code\":429 retry in 2.5s" = 429 ∧
    parseRetrySecs "code\":429 retry in 2.5s" = some (5 / 2) ∧
    retryDelayMs 2000 "code\":429 retry in 2.5s" = 3000 := by
  have hval : ((↑(2 : ℕ) : ℚ) + ↑(5 : ℕ) / 10 ^ 1) = 5 / 2 := by norm_num
  have hparse : parseRetrySecs "code\":429 retry in 2.5s" = some (5 / 2) := by
    have h0 : parseRetrySecs "code\":429 retry in 2.5s" =
        some ((↑(2 : ℕ) : ℚ) + ↑(5 : ℕ) / 10 ^ 1) := rfl
    rw [h0, hval]
  refine ⟨by decide, hparse, ?_⟩
  have h := (C3_rate_limited_backoff 2000 "code\":429 retry in 2.5s" (5 / 2)
    (by decide)).1 hparse
  rw [h]
  norm_num

/-! Claim C4. -/

/-- C4: with the tool-call budget of 5 and a model that requests a
`googleSearch` tool call on every round, the loop terminates after exactly 5
rounds and the request returns the last obtained response text as the final
answer, with no error raised. -/
theorem C4_budget_exhaustion_graceful (prior ms : List Message) (m0 : Message)
    (gen : Nat → Nat → Except String GenResponse) (search : String → String)
    (resp : Nat → GenResponse) (q : Nat → String) (cc : Nat → GContent) (t : String)
    (hgen : ∀ j, gen j 0 = .ok (resp j))
    (hcall : ∀ j, (resp j).functionCalls.head? = some ⟨"googleSearch", q j⟩)
    (hcc : ∀ j, (resp j).candContent = some (cc j))
    (htext : (resp 4).text = some t) :
    (∃ cs2, runLoop gen search ((prior ++ [m0]).map msgToContent) =
        .ok ⟨some (resp 4), cs2, 5⟩) ∧
    postModel true prior (ms ++ [m0]) gen search =
      some ⟨200, .ok t, (prior ++ [m0]) ++ [⟨Role.assistant, t⟩]⟩ := by
  have hre : ∀ j, (retryExec (gen j)).outcome = .ok (some (resp j)) := fun j => by
    rw [retryExec_first_ok (hgen j)]
  obtain ⟨cs2, hloop⟩ := loopAux_all_tools gen search resp q cc hre hcall hcc 4 0
    ((prior ++ [m0]).map msgToContent) ((prior ++ [m0]).map msgToContent).length none
    (Or.inr ⟨rfl, rfl⟩)
  have hrun : runLoop gen search ((prior ++ [m0]).map msgToContent) =
      .ok ⟨some (resp 4), cs2, 5⟩ := by
    show loopAux gen search (4 + 1) 0 _ _ none = _
    rw [hloop]
  refine ⟨⟨cs2, hrun⟩, ?_⟩
  rw [postModel_ok prior gen search (List.getLast?_concat ms) hrun]
  have hreply : replyOf (some (resp 4)) = t := by
    unfold replyOf
    simp [htext]
  simp [hreply]

/-- A response that always requests a `googleSearch` tool call. -/
def respToolW : GenResponse := ⟨[⟨"googleSearch", "w"⟩], some (.modelPayload "mc"), some "T"⟩

/-- Oracle that answers every round and attempt with `respToolW`. -/
def genToolW : Nat → Nat → Except String GenResponse := fun _ _ => .ok respToolW

/-- C4 witness: a concrete always-tool-calling model run. -/
theorem C4_witness :
    postModel true [] [⟨Role.user, "hi"⟩] genToolW (fun s => "R:" ++ s) =
      some ⟨200, .ok "T", [⟨Role.user, "hi"⟩, ⟨Role.assistant, "T"⟩]⟩ :=
  (C4_budget_exhaustion_graceful [] [] ⟨Role.user, "hi"⟩ genToolW (fun s => "R:" ++ s)
    (fun _ => respToolW) (fun _ => "w") (fun _ => .modelPayload "mc") "T"
    (fun _ => rfl) (fun _ => rfl) (fun _ => rfl) rfl).2

/-! Claim C5. -/

/-- C5: a model response carrying no tool-call request ends the loop after
exactly one round, and the text returned to the caller equals the model's
response text. -/
theorem C5_no_tool_call_one_round (prior ms : List Message) (m0 : Message)
    (gen : Nat → Nat → Except String GenResponse) (search : String → String)
    (resp : GenResponse) (t : String) (hgen : gen 0 0 = .ok resp)
    (hnc : resp.functionCalls = []) (htext : resp.text = some t) :
    runLoop gen search ((prior ++ [m0]).map msgToContent) =
      .ok ⟨some resp, (prior ++ [m0]).map msgToContent, 1⟩ ∧
    postModel true prior (ms ++ [m0]) gen search =
      some ⟨200, .ok t, (prior ++ [m0]) ++ [⟨Role.assistant, t⟩]⟩ := by
  have hre : (retryExec (gen 0)).outcome = .ok (some resp) := by
    rw [retryExec_first_ok hgen]
  have hfc : firstCall (some resp) = none := by
    simp [firstCall, hnc]
  have hrun : runLoop gen search ((prior ++ [m0]).map msgToContent) =
      .ok ⟨some resp, (prior ++ [m0]).map msgToContent, 1⟩ := by
    show loopAux gen search (4 + 1) 0 _ _ none = _
    rw [loopAux_no_call search 4 none (by simp) hre hfc]
  refine ⟨hrun, ?_⟩
  rw [postModel_ok prior gen search (List.getLast?_concat ms) hrun]
  have hreply : replyOf (some resp) = t := by
    unfold replyOf
    simp [htext]
  simp [hreply]

/-- A response with no tool call and text `T`. -/
def respPlainW : GenResponse := ⟨[], none, some "T"⟩

/-- Oracle that always answers with `respPlainW`. -/
def genPlainW : Nat → Nat → Except String GenResponse := fun _ _ => .ok respPlainW

/-- C5 witness: a concrete tool-free model run. -/
theorem C5_witness :
    runLoop genPlainW (fun _ => "")
        (([] ++ [(⟨Role.user, "hi"⟩ : Message)]).map msgToContent) =
      .ok ⟨some respPlainW, ([] ++ [(⟨Role.user, "hi"⟩ : Message)]).map msgToContent, 1⟩ ∧
    postModel true [] [⟨Role.user, "hi"⟩] genPlainW (fun _ => "") =
      some ⟨200, .ok "T", [⟨Role.user, "hi"⟩, ⟨Role.assistant, "T"⟩]⟩ :=
  C5_no_tool_call_one_round [] [] ⟨Role.user, "hi"⟩ genPlainW (fun _ => "") respPlainW "T"
    rfl rfl rfl

/-! Claim C6. -/

/-- C6: a model response naming a tool that is not in the registry aborts the
run at once with the unrecoverable `Unknown function call` error: for any
remaining iteration budget the loop throws it immediately, the error is not
retried anywhere, and the request surfaces it through the terminal
classifier with the already-appended user turn retained. -/
theorem C6_unknown_tool_aborts (prior ms : List Message) (m0 : Message)
    (gen : Nat → Nat → Except String GenResponse) (search : String → String)
    (resp : GenResponse) (nm q : String) (hgen : gen 0 0 = .ok resp)
    (hcall : resp.functionCalls.head? = some ⟨nm, q⟩) (hname : nm ≠ "googleSearch") :
    (∀ fuel cs fr, loopAux gen search (fuel + 1) 0 cs cs.length fr =
      .error ("Unknown function call: " ++ nm)) ∧
    postModel true prior (ms ++ [m0]) gen search =
      some ⟨(classifyTerminal ("Unknown function call: " ++ nm)).1,
            .error (classifyTerminal ("Unknown function call: " ++ nm)).2,
            prior ++ [m0]⟩ := by
  have hre : (retryExec (gen 0)).outcome = .ok (some resp) := by
    rw [retryExec_first_ok hgen]
  have hfc : firstCall (some resp) = some ⟨nm, q⟩ := by
    simp [firstCall, hcall]
  have habort : ∀ fuel cs fr, loopAux gen search (fuel + 1) 0 cs cs.length fr =
      .error ("Unknown function call: " ++ nm) := by
    intro fuel cs fr
    exact loopAux_unknown search fuel fr (by simp) hre hfc hname
  refine ⟨habort, ?_⟩
  exact postModel_err prior gen search (List.getLast?_concat ms) (habort 4 _ none)

/-- A response requesting a tool outside the registry. -/
def respUnknownW : GenResponse := ⟨[⟨"mysteryTool", "z"⟩], some (.modelPayload "mc"), some "T"⟩

/-- Oracle that always answers with `respUnknownW`. -/
def genUnknownW : Nat → Nat → Except String GenResponse := fun _ _ => .ok respUnknownW

/-- C6 witness: a concrete unknown-tool run, with plenty of budget left. -/
theorem C6_witness :
    loopAux genUnknownW (fun _ => "") 3 0 [] 0 none =
      .error "Unknown function call: mysteryTool" ∧
    postModel true [] [⟨Role.user, "hi"⟩] genUnknownW (fun _ => "") =
      some ⟨500, .error msgDefault, [⟨Role.user, "hi"⟩]⟩ := by
  have h := C6_unknown_tool_aborts [] [] ⟨Role.user, "hi"⟩ genUnknownW (fun _ => "")
    respUnknownW "mysteryTool" "z" rfl rfl (by decide)
  exact ⟨h.1 2 [] none, h.2⟩

/-! Claim C7. -/

/-- The retry loop never exceeds its remaining-attempt budget. -/
theorem retryAux_attempts_le (op : Nat → Except String GenResponse) :
    ∀ (n attempt : Nat) (cur : ℚ) (ds : List ℚ),
      (retryAux op n attempt cur ds).attempts ≤ attempt + n := by
  intro n
  induction n with
  | zero =>
    intro attempt cur ds
    simp [retryAux_zero]
  | succ k ih =>
    intro attempt cur ds
    rw [retryAux_succ]
    cases h : op attempt with
    | ok r =>
      dsimp only
      omega
    | error msg =>
      dsimp only
      split_ifs with hc
      · have := ih (attempt + 1) (nextDelay cur msg) (retryDelayMs cur msg :: ds)
        omega
      · dsimp only
        omega

/-- When every attempt keeps failing retryably, the loop runs through its
whole budget and re-raises the last error. -/
theorem retryAux_exhaust (op : Nat → Except String GenResponse) (m : Nat → String) :
    ∀ (n attempt : Nat) (cur : ℚ) (ds : List ℚ),
      (∀ j, attempt ≤ j → j < attempt + n + 1 → op j = .error (m j)) →
      (∀ j, attempt ≤ j → j < attempt + n → shouldRetry (m j) = true) →
      (retryAux op (n + 1) attempt cur ds).outcome = .error (m (attempt + n)) ∧
      (retryAux op (n + 1) attempt cur ds).attempts = attempt + n + 1 := by
  intro n
  induction n with
  | zero =>
    intro attempt cur ds hall _
    rw [retryAux_stop 0 cur ds (hall attempt (le_refl _) (by omega)) (by simp)]
    simp
  | succ k ih =>
    intro attempt cur ds hall hretry
    rw [retryAux_retry (k + 1) cur ds (hall attempt (le_refl _) (by omega))
      (hretry attempt (le_refl _) (by omega)) (by omega)]
    have hnext := ih (attempt + 1) (nextDelay cur (m attempt))
      (retryDelayMs cur (m attempt) :: ds)
      (fun j h1 h2 => hall j (by omega) (by omega))
      (fun j h1 h2 => hretry j (by omega) (by omega))
    have harith : attempt + 1 + k = attempt + (k + 1) := by omega
    rw [harith] at hnext
    exact hnext

/-- C7: any upstream failure not classified as 503 or 429 is re-thrown at
once, with no further attempt and no wait added; every run makes at most 5
attempts; and if all five attempts fail, the first four retryably, the run
re-raises the fifth attempt's error as terminal. -/
theorem C7_nonretryable_and_budget (op : Nat → Except String GenResponse) (m : Nat → String) :
    (∀ (n attempt : Nat) (cur : ℚ) (ds : List ℚ) (msg : String), op attempt = .error msg →
      parseStatusCode msg ≠ 503 → parseStatusCode msg ≠ 429 →
      retryAux op (n + 1) attempt cur ds = ⟨.error msg, attempt + 1, ds.reverse⟩) ∧
    (retryExec op).attempts ≤ 5 ∧
    ((∀ j, j < 5 → op j = .error (m j)) → (∀ j, j < 4 → shouldRetry (m j) = true) →
      (retryExec op).outcome = .error (m 4) ∧ (retryExec op).attempts = 5) := by
  refine ⟨?_, ?_, ?_⟩
  · intro n attempt cur ds msg h h503 h429
    exact retryAux_stop n cur ds h (by simp [shouldRetry_eq_false h503 h429])
  · exact retryAux_attempts_le op 5 0 initialDelay []
  · intro hall hretry
    have h := retryAux_exhaust op m 4 0 initialDelay []
      (fun j h1 h2 => hall j (by omega)) (fun j h1 h2 => hretry j (by omega))
    constructor
    · show (retryAux op (4 + 1) 0 initialDelay []).outcome = _
      rw [h.1]
    · show (retryAux op (4 + 1) 0 initialDelay []).attempts = _
      rw [h.2]

/-- Upstream that always fails with a non-retryable message. -/
def opFatal : Nat → Except String GenResponse := fun _ => .error "boom"

/-- Upstream that always fails with a genuine 503 message. -/
def opOverloaded : Nat → Except String GenResponse := fun _ => .error "code\":503"

/-- C7 witness: a concrete non-retryable failure propagates after one
attempt with no wait, and a persistent 503 exhausts exactly the 5-attempt
budget, re-raising the last error. -/
theorem C7_witness :
    retryExec opFatal = ⟨.error "boom", 1, []⟩ ∧
    (retryExec opOverloaded).attempts ≤ 5 ∧
    (retryExec opOverloaded).outcome = .error "code\":503" ∧
    (retryExec opOverloaded).attempts = 5 := by
  have h1 := (C7_nonretryable_and_budget opFatal (fun _ => "boom")).1 4 0 initialDelay []
    "boom" rfl (by decide) (by decide)
  have h2 := (C7_nonretryable_and_budget opOverloaded (fun _ => "code\":503")).2.1
  have h3 := (C7_nonretryable_and_budget opOverloaded (fun _ => "code\":503")).2.2
    (fun j hj => rfl) (fun j hj => by decide)
  exact ⟨h1, h2, h3.1, h3.2⟩

/-! Claim C8. -/

/-- C8: a model response carrying one or more tool-call requests dispatches
only the first one, and, when the invocation record is present, exactly two
turns are appended to the working conversation in order: the model's
tool-invocation record, then the tool's result turn built from the first
call's query; the remaining requested calls are ignored entirely. -/
theorem C8_first_call_two_turns (gen : Nat → Nat → Except String GenResponse)
    (search : String → String) (fuel i : Nat) (cs : List GContent) (cl : Nat)
    (fr : Option GenResponse) (resp : GenResponse) (c : FunctionCall)
    (rest : List FunctionCall) (cc : GContent) (hg : ¬(cs.length ≤ cl ∧ 0 < i))
    (ho : (retryExec (gen i)).outcome = .ok (some resp))
    (hcalls : resp.functionCalls = c :: rest) (hn : c.name = "googleSearch")
    (hcc : resp.candContent = some cc) :
    loopAux gen search (fuel + 1) i cs cl fr =
      loopAux gen search fuel (i + 1)
        (cs ++ [cc, .functionResponse "googleSearch" (search c.argQuery)])
        (if cl < cs.length then cs.length else cl) (some resp) := by
  have hfc : firstCall (some resp) = some c := by
    simp [firstCall, hcalls]
  have hcand : candOf (some resp) = some cc := by
    simp [candOf, hcc]
  exact loopAux_tool search fuel fr hg ho hfc hn hcand

/-- A response requesting two tool calls; only the first may be honored. -/
def respTwoCalls : GenResponse :=
  ⟨[⟨"googleSearch", "w"⟩, ⟨"other", "x"⟩], some (.modelPayload "mc"), some "T"⟩

/-- Oracle that always answers with `respTwoCalls`. -/
def genTwoCalls : Nat → Nat → Except String GenResponse := fun _ _ => .ok respTwoCalls

/-- C8 witness: with two requested calls, the round appends exactly the
invocation record and the first call's result, ignoring the second call. -/
theorem C8_witness :
    loopAux genTwoCalls (fun s => "R:" ++ s) 1 0 [] 0 none =
      loopAux genTwoCalls (fun s => "R:" ++ s) 0 1
        [.modelPayload "mc", .functionResponse "googleSearch" "R:w"] 0
        (some respTwoCalls) :=
  C8_first_call_two_turns genTwoCalls (fun s => "R:" ++ s) 0 0 [] 0 none respTwoCalls
    ⟨"googleSearch", "w"⟩ [⟨"other", "x"⟩] (.modelPayload "mc") (by simp) rfl rfl rfl rfl

/-! Claim C9. -/

/-- C9: stored session state is strictly append-only.  Whatever the outcome,
the history stored after the request extends the prior history followed by
the appended user turn; when the request ends in a terminal failure, exactly
the prior history plus the user turn remains stored (the failure rolls
nothing back); and on success exactly one assistant turn is appended after
it, carrying the returned reply. -/
theorem C9_append_only (prior ms : List Message) (m0 : Message)
    (gen : Nat → Nat → Except String GenResponse) (search : String → String)
    (r : PostResult) (h : postModel true prior (ms ++ [m0]) gen search = some r) :
    (∃ rest, r.history = (prior ++ [m0]) ++ rest) ∧
    (r.status ≠ 200 → r.history = prior ++ [m0]) ∧
    (r.status = 200 → ∃ reply, r.body = .ok reply ∧
      r.history = (prior ++ [m0]) ++ [⟨Role.assistant, reply⟩]) := by
  have hlast : (ms ++ [m0]).getLast? = some m0 := List.getLast?_concat ms
  cases hrun : runLoop gen search ((prior ++ [m0]).map msgToContent) with
  | ok lr =>
    rw [postModel_ok prior gen search hlast hrun] at h
    have hr := Option.some.inj h
    subst hr
    refine ⟨⟨[⟨Role.assistant, replyOf lr.fullResponse⟩], rfl⟩, ?_, ?_⟩
    · intro hne
      exact absurd rfl hne
    · intro _
      exact ⟨replyOf lr.fullResponse, rfl, rfl⟩
  | error m =>
    rw [postModel_err prior gen search hlast hrun] at h
    have hr := Option.some.inj h
    subst hr
    refine ⟨⟨[], by simp⟩, ?_, ?_⟩
    · intro _
      rfl
    · intro h200
      exact absurd h200 (classifyTerminal_ne_200 m)

/-- C9 witness: the append-only shape at a concrete successful run. -/
theorem C9_witness :
    ∃ rest, ([(⟨Role.user, "hi"⟩ : Message), ⟨Role.assistant, "T"⟩] : List Message) =
      (([] : List Message) ++ [⟨Role.user, "hi"⟩]) ++ rest := by
  have h : postModel true [] ([] ++ [(⟨Role.user, "hi"⟩ : Message)]) genPlainW
      (fun _ => "") = some ⟨200, .ok "T", [⟨Role.user, "hi"⟩, ⟨Role.assistant, "T"⟩]⟩ := rfl
  exact (C9_append_only [] [] ⟨Role.user, "hi"⟩ genPlainW (fun _ => "") _ h).1

/-! Claim C10. -/

/-- C10: only the last element of the request's `messages` array matters: the
whole outcome — status, body, and stored history — is identical whether the
request carried a longer client-side transcript or just its last message, so
every earlier payload element is ignored and the model input is built solely
from the server-side stored history plus that last message. -/
theorem C10_only_last_message (key : Bool) (prior ms : List Message) (m0 : Message)
    (gen : Nat → Nat → Except String GenResponse) (search : String → String) :
    postModel key prior (ms ++ [m0]) gen search = postModel key prior [m0] gen search := by
  cases key with
  | false => rfl
  | true =>
    have h1 : (ms ++ [m0]).getLast? = some m0 := List.getLast?_concat ms
    have h2 : ([m0] : List Message).getLast? = some m0 := rfl
    unfold postModel
    rw [h1, h2]

end ChatRoute
